import Mathlib

/-!
Verification of the gitpress Repository orchestration subsystem
(src/gitpress/repository.py and src/gitpress/previewing.py).

Python strings are modelled as lists of characters (`PStr`).  The path
functions `os.path.join`, `os.path.normpath` and `os.path.abspath` used by
`Repository.resolve` are the POSIX implementations from the Python standard
library, embedded here character for character.  `os.getcwd()` is passed in
explicitly as a `cwd` parameter.
-/

/-- A Python string: a list of characters. -/
abbrev PStr := List Char

/-- Converts a Lean string literal to the `PStr` model. -/
def pstr (s : String) : PStr := s.data

/-- `os.path.join(a, b)` (POSIX, two arguments):
if `b` starts with a slash the result is `b`; otherwise `b` is appended to
`a`, inserting a separating slash unless `a` is empty or ends in a slash. -/
def pjoin (a b : PStr) : PStr :=
  if b.head? = some '/' then b
  else if a = [] ∨ a.getLast? = some '/' then a ++ b
  else a ++ '/' :: b

/-- `s.split('/')` as used by `posixpath.normpath`. -/
def splitOnSlash : PStr → List PStr
  | [] => [[]]
  | c :: s =>
    let rest := splitOnSlash s
    if c = '/' then [] :: rest
    else
      match rest with
      | [] => [[c]]
      | cur :: tail => (c :: cur) :: tail

/-- One iteration of the component loop of `posixpath.normpath`:
empty components and `'.'` are dropped, `'..'` cancels a previous component
where possible, and everything else is kept. -/
def normStep (slashes : Nat) (acc : List PStr) (comp : PStr) : List PStr :=
  if comp = [] ∨ comp = pstr "." then acc
  else if comp ≠ pstr ".." ∨ (slashes = 0 ∧ acc = []) ∨ acc.getLast? = some (pstr "..") then
    acc ++ [comp]
  else if acc ≠ [] then acc.dropLast
  else acc

/-- `'/'.join(comps)`. -/
def intercalateSlash : List PStr → PStr
  | [] => []
  | [x] => x
  | x :: xs => x ++ '/' :: intercalateSlash xs

/-- The number of leading slashes `posixpath.normpath` preserves:
one for an absolute path, two for a path starting with exactly two slashes,
zero for a relative path. -/
def initialSlashes (p : PStr) : Nat :=
  if (pstr "/").isPrefixOf p then
    if (pstr "//").isPrefixOf p ∧ ¬ (pstr "///").isPrefixOf p then 2 else 1
  else 0

/-- `posixpath.normpath`. -/
def normpath (p : PStr) : PStr :=
  if p = [] then pstr "."
  else
    let slashes := initialSlashes p
    let comps := (splitOnSlash p).foldl (normStep slashes) []
    let res := List.replicate slashes '/' ++ intercalateSlash comps
    if res = [] then pstr "." else res

/-- `posixpath.abspath`, with `os.getcwd()` supplied as `cwd`. -/
def abspath (cwd p : PStr) : PStr :=
  normpath (if p.head? = some '/' then p else pjoin cwd p)

/-- `Repository.default_directory` (repository.py line 46). -/
def default_directory : PStr := pstr ".gitpress"

/-- `Repository.resolve(content_directory, repo_directory)`
(repository.py lines 57-67): returns the `(content_directory, repo_directory)`
pair after applying default values. -/
def Repository.resolve (cwd : PStr) (content_directory repo_directory : Option PStr) :
    PStr × PStr :=
  match content_directory, repo_directory with
  | none, some repo => (pjoin repo (pstr ".."), repo)
  | c?, r? =>
    let content := c?.getD (pstr ".")
    let repo := r?.getD default_directory
    let content := abspath cwd content
    (content, pjoin content repo)

/-- The path computation performed by the `Repository` constructor
(repository.py lines 25-29): an omitted `directory` argument is replaced by
`'.'` and the pair is then resolved with that directory as the
`repo_directory` argument of `Repository.resolve`. -/
def ctorResolve (cwd : PStr) (directory content_directory : Option PStr) : PStr × PStr :=
  Repository.resolve cwd content_directory (some (directory.getD (pstr ".")))


/-- The exception kinds raised by the repository subsystem.  The classes
themselves live in gitpress/exceptions.py, which is not under src/.
Modelled from the spec: each error kind is a distinct, caller-visible signal
carrying the offending path or name (spec sections 7); `typeError` stands for
the Python built-in TypeError, `valueError` for the hard error the config
store raises on malformed data, and `otherError` for any further exception an
external collaborator may raise. -/
inductive PyError where
  | repositoryNotFound (directory : PStr)
  | invalidRepository (directory message : PStr)
  | presenterNotFound (info : PStr)
  | repositoryAlreadyExists (content_directory repo_directory : PStr)
  | themeNotFound (theme : PStr)
  | typeError (message : PStr)
  | valueError (key : PStr)
  | notImplementedError
  | otherError (message : PStr)
  deriving DecidableEq

/-- A persisted config value.  Modelled from the spec: the config file is an
opaque key/value persistence whose values are strings (the `theme` key) or
nested mappings (the `plugins` key) — spec sections 3 and 6. -/
inductive CVal where
  | str (s : PStr)
  | dict (m : List (PStr × CVal))

/-- Python equality `v == s` of a stored config value (or `None`, for a
missing key) against a string: only the equal string compares equal; `None`
and mappings never equal a string. -/
def pyEqStr (v : Option CVal) (s : PStr) : Bool :=
  match v with
  | some (CVal.str t) => t == s
  | _ => false

/-- The persisted key/value mapping held by a `Config` handle. -/
abbrev Config := List (PStr × CVal)

/-- Looks a key up in the config mapping. -/
def configLookup : Config → PStr → Option CVal
  | [], _ => none
  | (k, v) :: rest, key => if k = key then some v else configLookup rest key

/-- Replaces the value stored under a key, appending the key if absent. -/
def configInsert : Config → PStr → CVal → Config
  | [], key, v => [(key, v)]
  | (k, w) :: rest, key, v =>
    if k = key then (k, v) :: rest else (k, w) :: configInsert rest key v

/-- `Config.set(key, value)`.  Modelled from the spec: the store persists the
new value (write-through, spec section 4.6) and hands back the previously
stored value, which is what lets `use_theme` report whether the value changed
(spec section 4.7).  config.py is not under src/. -/
def configSet (c : Config) (key : PStr) (v : CVal) : Option CVal × Config :=
  (configLookup c key, configInsert c key v)

/-- `Config.get(key, default={}, expect=dict)` without `silent`.  Modelled
from the spec: a missing key yields the empty default, while malformed
existing data is a hard error (spec section 4.6).  config.py is not under
src/. -/
def configGetDictStrict (c : Config) (key : PStr) : Except PyError (List (PStr × CVal)) :=
  match configLookup c key with
  | none => Except.ok []
  | some (CVal.dict m) => Except.ok m
  | some _ => Except.error (PyError.valueError key)

/-- `Config.get(key, default={}, expect=dict, silent=True)`.  Modelled from
the spec: a missing or malformed key is tolerated by returning the empty
default rather than failing (spec section 4.6).  config.py is not under
src/. -/
def configGetDictSilent (c : Config) (key : PStr) : List (PStr × CVal) :=
  match configLookup c key with
  | some (CVal.dict m) => m
  | _ => []

/-- The state of a repository as seen by the theme operations:
`themesListing` is `some (os.listdir (directory/themes))` when that
subdirectory exists and `none` otherwise, and `config` is the persisted
config mapping. -/
structure RepoState where
  themesListing : Option (List PStr)
  config : Config

/-- `Repository.themes` (repository.py lines 145-148): the directory listing
of the themes subdirectory, or `None` when it does not exist. -/
def Repository.themes (st : RepoState) : Option (List PStr) :=
  st.themesListing

/-- `Repository.use_theme` (repository.py lines 150-154).  The membership
test `theme not in self.themes()` raises the Python built-in TypeError when
`themes()` is `None`, because `None` is not iterable; otherwise a missing
theme raises ThemeNotFoundError, and an installed theme is written to the
`theme` config key, returning whether the stored value changed. -/
def Repository.use_theme (st : RepoState) (theme : PStr) : Except PyError (Bool × RepoState) :=
  match Repository.themes st with
  | none => Except.error (PyError.typeError (pstr "argument of type NoneType is not iterable"))
  | some installed =>
    if theme ∉ installed then Except.error (PyError.themeNotFound theme)
    else
      let r := configSet st.config (pstr "theme") (CVal.str theme)
      Except.ok (! pyEqStr r.1 theme, { st with config := r.2 })

/-- One declared plugin.  Modelled from the spec: a name plus its
plugin-specific options mapping (spec section 3); plugin.py is not under
src/. -/
structure PluginRequirement where
  name : PStr
  options : CVal

/-- `Repository.plugins` (repository.py lines 120-123): one
`PluginRequirement` per entry of the `plugins` config mapping, read with the
tolerant (`silent=True`) config lookup. -/
def Repository.plugins (c : Config) : List PluginRequirement :=
  (configGetDictSilent c (pstr "plugins")).map (fun p => ⟨p.1, p.2⟩)

/-- `Repository.add_plugin` (repository.py lines 125-133): reads the
`plugins` mapping with strict type validation, returns `false` unchanged if
the name is present, and otherwise inserts the name with empty options,
persists, and returns `true`. -/
def Repository.add_plugin (c : Config) (plugin : PStr) : Except PyError (Bool × Config) :=
  match configGetDictStrict c (pstr "plugins") with
  | Except.error e => Except.error e
  | Except.ok plugins =>
    if plugin ∈ plugins.map Prod.fst then Except.ok (false, c)
    else
      Except.ok (true, (configSet c (pstr "plugins")
        (CVal.dict (plugins ++ [(plugin, CVal.dict [])]))).2)

/-- `Repository.build` (repository.py lines 116-118): delegates to the
resolved presenter's build operation.  presenter.py is not under src/;
modelled from the spec, the presenter collaborator interface is
`Presenter.build(out_directory?) -> output_path` (spec section 6), supplied
here as the function `presenter_build`.  The `virtualenv` parameter (default
`True` in the source) appears in the signature but not in the body. -/
def Repository.build (presenter_build : Option PStr → PStr)
    (out_directory : Option PStr) (virtualenv : Bool) : PStr :=
  presenter_build out_directory

/-- The build operation as the spec sentence for the claim describes it: a
delegation that passes through both the optional output directory override
and the isolation flag to the presenter and returns its result. -/
def buildPerSpec (presenter_build : Option PStr → Bool → PStr)
    (out_directory : Option PStr) (isolate : Bool) : PStr :=
  presenter_build out_directory isolate

/-- One observable action of an operation, in order of occurrence. -/
inductive Effect where
  | buildCall (directory : PStr)
  | chdir (directory : PStr)
  | bindServer (host : PStr) (port : Nat)
  | printLine (message : PStr)
  | serveForever
  | copytree (src dst : PStr)
  | gitInit (directory : PStr)
  | gitAdd (directory : PStr)
  | gitCommit (directory message : PStr)
  deriving DecidableEq

/-- Python `x or d` for a string-valued optional argument: `d` when `x` is
`None` or empty (falsy). -/
def pyOrStr (v : Option PStr) (d : PStr) : PStr :=
  match v with
  | none => d
  | some s => if s = [] then d else s

/-- Python `x or d` for an integer-valued optional argument: `d` when `x` is
`None` or `0` (falsy). -/
def pyOrNat (v : Option Nat) (d : Nat) : Nat :=
  match v with
  | none => d
  | some n => if n = 0 then d else n

/-- The line printed before the serve loop (previewing.py line 22). -/
def servingMessage (host : PStr) (port : Nat) : PStr :=
  pstr " * Serving on http://" ++ host ++ pstr ":" ++ (Nat.repr port).data ++ pstr "/"

/-- `preview` (previewing.py lines 7-23) as its trace of effects: apply the
defaults, build the directory (`build` comes from gitpress/building.py, which
is not under src/ and is modelled from the spec as the collaborator `buildFn`
returning the output directory), change into the output directory, bind the
TCP server, print the bound address, and enter the blocking serve loop. -/
def previewing.preview (buildFn : PStr → PStr) (directory host : Option PStr)
    (port : Option Nat) (watch : Bool) : List Effect :=
  let directory := pyOrStr directory (pstr ".")
  let host := pyOrStr host (pstr "127.0.0.1")
  let port := pyOrNat port 5000
  let out_directory := buildFn directory
  [Effect.buildCall directory,
   Effect.chdir out_directory,
   Effect.bindServer host port,
   Effect.printLine (servingMessage host port),
   Effect.serveForever]

/-- `Repository.preview` (repository.py lines 111-114): delegates to the
preview function, passing the repository's content directory and the
caller's host and port (`watch` keeps its default). -/
def Repository.preview (buildFn : PStr → PStr) (content_directory : PStr)
    (host : Option PStr) (port : Option Nat) : List Effect :=
  previewing.preview buildFn (some content_directory) host port true

/-- The fields of a successfully constructed `Repository` object that the
lifecycle operations observe: its metadata directory and content
directory. -/
structure Repository where
  directory : PStr
  content_directory : PStr

/-- The external collaborators `Repository.init` calls into, together with
the working directory.  `probe` is the outcome of the existence-probe
construction `Repository(repo_directory, content_directory)` (repository.py
line 83), `construct` the outcome of the final construction at line 103 (the
filesystem has changed in between), `resolveTemplate` the external template
resolver (templates.py is not under src/), and `copytree` the outcome of
`shutil.copytree`. -/
structure InitEnv where
  cwd : PStr
  probe : PStr → PStr → Except PyError Unit
  resolveTemplate : PStr → Except PyError PStr
  copytree : PStr → PStr → Except PyError Unit
  construct : PStr → PStr → Except PyError Repository

/-- The existence probe of `Repository.init` (repository.py lines 81-90):
if the probe construction succeeds, raise
`RepositoryAlreadyExistsError(content_directory, repo_directory)`; the
except clauses suppress `RepositoryNotFoundError`, `InvalidRepositoryError`
and `PresenterNotFoundError`; every other exception — including the
`RepositoryAlreadyExistsError` raised inside the try block — propagates. -/
def initProbe (outcome : Except PyError Unit) (content_directory repo_directory : PStr) :
    Except PyError Unit :=
  match outcome with
  | Except.ok _ => Except.error (PyError.repositoryAlreadyExists content_directory repo_directory)
  | Except.error (PyError.repositoryNotFound _) => Except.ok ()
  | Except.error (PyError.invalidRepository _ _) => Except.ok ()
  | Except.error (PyError.presenterNotFound _) => Except.ok ()
  | Except.error e => Except.error e

/-- Whether an error kind is one of the three the except clauses of the
existence probe suppress. -/
def suppressedByInitProbe : PyError → Bool
  | PyError.repositoryNotFound _ => true
  | PyError.invalidRepository _ _ => true
  | PyError.presenterNotFound _ => true
  | _ => false

/-- Modelled from the spec: the name of the default bundled template
(templates.py, not under src/, owns the actual value). -/
def default_template : PStr := pstr "default"

/-- Python `repr` of a string: the string wrapped in single quotes
(character 39; escaping inside the name is not exercised here). -/
def pyRepr (s : PStr) : PStr :=
  Char.ofNat 39 :: (s ++ [Char.ofNat 39])

/-- The commit message of repository.py lines 97-98: the template name is
quoted with `repr` unless it is the default template. -/
def commitMessage (template : PStr) : PStr :=
  pstr "\"Add " ++ (if template = default_template then template else pyRepr template)
    ++ pstr " presentation content.\""

/-- The part of `Repository.init` after a free location was established
(repository.py lines 92-103): resolve the template, copy it over, run the
three git commands, and return the final construction's result. -/
def initProceed (env : InitEnv) (content_directory repo_directory template : PStr) :
    Except PyError (List Effect × Repository) :=
  match env.resolveTemplate template with
  | Except.error e => Except.error e
  | Except.ok template_path =>
    match env.copytree template_path repo_directory with
    | Except.error e => Except.error e
    | Except.ok _ =>
      let message := commitMessage template
      match env.construct repo_directory content_directory with
      | Except.error e => Except.error e
      | Except.ok repo =>
        Except.ok ([Effect.copytree template_path repo_directory,
                    Effect.gitInit repo_directory,
                    Effect.gitAdd repo_directory,
                    Effect.gitCommit repo_directory message], repo)

/-- `Repository.init` (repository.py lines 69-103).  The static factory
declares `self` as its first parameter (line 70) and never uses it, so the
parameter is modelled at an arbitrary type.  The template defaults, the
paths are resolved, the existence probe runs its triage, and on a free
location the template is copied and committed and the freshly constructed
repository returned. -/
def Repository.init {α : Type} (env : InitEnv) (selfArg : α)
    (content_directory repo_directory template : Option PStr) :
    Except PyError (List Effect × Repository) :=
  let template := template.getD default_template
  let cr := Repository.resolve env.cwd content_directory repo_directory
  match initProbe (env.probe cr.2 cr.1) cr.1 cr.2 with
  | Except.error e => Except.error e
  | Except.ok _ => initProceed env cr.1 cr.2 template

/-- A call `Repository.init(a, b, c)` with three positional arguments: the
Python calling convention binds them, in order, to the declared parameters
`self`, `content_directory` and `repo_directory`, leaving `template` at its
default. -/
def repositoryInitPositional (env : InitEnv) (a b c : PStr) :
    Except PyError (List Effect × Repository) :=
  Repository.init env a (some b) (some c) none

/-- A path component that survives `posixpath.normpath` on an absolute path:
nonempty, not `.` or `..`, and slash-free. -/
def goodComp (x : PStr) : Prop :=
  x ≠ [] ∧ x ≠ pstr "." ∧ x ≠ pstr ".." ∧ '/' ∉ x

/-- A concrete collaborator environment for evaluating `Repository.init` at
specific inputs: the existence probe reports the outcome `o`, and every
other collaborator succeeds. -/
def initEnvOfProbe (o : Except PyError Unit) : InitEnv where
  cwd := pstr "/cwd"
  probe := fun _ _ => o
  resolveTemplate := fun _ => Except.ok (pstr "/lib/gitpress/templates/default")
  copytree := fun _ _ => Except.ok ()
  construct := fun d c => Except.ok ⟨d, c⟩

/-- `splitOnSlash` always yields at least one piece. -/
theorem splitOnSlash_ne_nil (s : PStr) : splitOnSlash s ≠ [] := by
  cases s with
  | nil => simp [splitOnSlash]
  | cons c s =>
    simp only [splitOnSlash]
    by_cases h : c = '/'
    · simp [h]
    · simp only [if_neg h]
      cases splitOnSlash s <;> simp

/-- Pieces produced by `splitOnSlash` contain no slash. -/
theorem splitOnSlash_no_slash_mem (s : PStr) : ∀ x ∈ splitOnSlash s, '/' ∉ x := by
  induction s with
  | nil => intro x hx; simp [splitOnSlash] at hx; simp [hx]
  | cons c s ih =>
    intro x hx
    simp only [splitOnSlash] at hx
    by_cases h : c = '/'
    · rw [if_pos h] at hx
      rcases List.mem_cons.mp hx with hx | hx
      · simp [hx]
      · exact ih x hx
    · rw [if_neg h] at hx
      rcases hrest : splitOnSlash s with _ | ⟨cur, tail⟩
      · exact absurd hrest (splitOnSlash_ne_nil s)
      · rw [hrest] at hx
        rcases List.mem_cons.mp hx with hx | hx
        · subst hx
          intro hmem
          rcases List.mem_cons.mp hmem with h1 | h1
          · exact h h1.symm
          · exact ih cur (hrest ▸ List.mem_cons_self cur tail) h1
        · exact ih x (hrest ▸ List.mem_cons_of_mem cur hx)

/-- Splitting after a leading slash peels off one empty piece. -/
theorem splitOnSlash_cons_slash (s : PStr) : splitOnSlash ('/' :: s) = [] :: splitOnSlash s := by
  simp [splitOnSlash]

/-- Splitting a slash-free string yields the string as its single piece. -/
theorem splitOnSlash_of_no_slash (x : PStr) (h : '/' ∉ x) : splitOnSlash x = [x] := by
  induction x with
  | nil => simp [splitOnSlash]
  | cons c t ih =>
    have hc : c ≠ '/' := fun hh => h (hh ▸ List.mem_cons_self c t)
    have ht : '/' ∉ t := fun hh => h (List.mem_cons_of_mem c hh)
    simp only [splitOnSlash, if_neg hc, ih ht]

/-- A slash-free prefix merges into the first piece of the rest. -/
theorem splitOnSlash_append (x s : PStr) (cur : PStr) (tail : List PStr)
    (hx : '/' ∉ x) (hs : splitOnSlash s = cur :: tail) :
    splitOnSlash (x ++ s) = (x ++ cur) :: tail := by
  induction x with
  | nil => simpa using hs
  | cons c t ih =>
    have hc : c ≠ '/' := fun hh => hx (hh ▸ List.mem_cons_self c t)
    have ht : '/' ∉ t := fun hh => hx (List.mem_cons_of_mem c hh)
    simp only [List.cons_append, splitOnSlash, if_neg hc, List.append_eq, ih ht]

/-- Splitting inverts `'/'.join` on nonempty lists of slash-free pieces. -/
theorem splitOnSlash_intercalate (comps : List PStr) (hne : comps ≠ [])
    (h : ∀ x ∈ comps, '/' ∉ x) : splitOnSlash (intercalateSlash comps) = comps := by
  induction comps with
  | nil => exact absurd rfl hne
  | cons x xs ih =>
    cases xs with
    | nil =>
      simpa [intercalateSlash] using splitOnSlash_of_no_slash x (h x (List.mem_cons_self x []))
    | cons y ys =>
      have hx : '/' ∉ x := h x (List.mem_cons_self x (y :: ys))
      have hrest : splitOnSlash (intercalateSlash (y :: ys)) = y :: ys :=
        ih (by simp) (fun z hz => h z (List.mem_cons_of_mem x hz))
      have : splitOnSlash ('/' :: intercalateSlash (y :: ys)) = [] :: y :: ys := by
        rw [splitOnSlash_cons_slash, hrest]
      calc splitOnSlash (x ++ '/' :: intercalateSlash (y :: ys))
          = (x ++ []) :: y :: ys := splitOnSlash_append x _ [] (y :: ys) hx this
        _ = x :: y :: ys := by simp

/-- A member of `dropLast` is a member of the list. -/
theorem mem_of_mem_dropLast (l : List PStr) (a : PStr) (h : a ∈ l.dropLast) : a ∈ l := by
  induction l with
  | nil => simpa using h
  | cons x t ih =>
    cases t with
    | nil => simp [List.dropLast] at h
    | cons y u =>
      rw [List.dropLast_cons₂] at h
      rcases List.mem_cons.mp h with h | h
      · exact h ▸ List.mem_cons_self x (y :: u)
      · exact List.mem_cons_of_mem x (ih h)

/-- The last element reported by `getLast?` is a member of the list. -/
theorem mem_of_getLast?_eq (l : List PStr) (a : PStr) (h : l.getLast? = some a) : a ∈ l := by
  induction l with
  | nil => simp [List.getLast?] at h
  | cons x t ih =>
    cases t with
    | nil =>
      simp only [List.getLast?_singleton, Option.some.injEq] at h
      exact h ▸ List.mem_cons_self x []
    | cons y u =>
      rw [List.getLast?_cons_cons] at h
      exact List.mem_cons_of_mem x (ih h)

/-- The component loop ignores empty components. -/
theorem normStep_empty (s : Nat) (acc : List PStr) : normStep s acc [] = acc := by
  simp [normStep]

/-- The component loop appends any good component. -/
theorem normStep_good (s : Nat) (acc : List PStr) (comp : PStr) (h : goodComp comp) :
    normStep s acc comp = acc ++ [comp] := by
  obtain ⟨h1, h2, h3, _⟩ := h
  rw [normStep, if_neg (by simp [h1, h2]), if_pos (Or.inl h3)]

/-- Folding the component loop over good components appends them all. -/
theorem foldl_normStep_good (s : Nat) (comps : List PStr)
    (h : ∀ x ∈ comps, goodComp x) :
    ∀ acc, comps.foldl (normStep s) acc = acc ++ comps := by
  induction comps with
  | nil => intro acc; simp
  | cons x xs ih =>
    intro acc
    rw [List.foldl_cons, normStep_good s acc x (h x (List.mem_cons_self x xs)),
      ih (fun z hz => h z (List.mem_cons_of_mem x hz))]
    simp

/-- Leading empty components are dropped by the component loop. -/
theorem foldl_normStep_empties (s k : Nat) (comps : List PStr) (acc : List PStr) :
    (List.replicate k [] ++ comps).foldl (normStep s) acc = comps.foldl (normStep s) acc := by
  induction k with
  | zero => simp
  | succ n ih =>
    rw [List.replicate_succ, List.cons_append, List.foldl_cons, normStep_empty]
    exact ih

/-- With at least one preserved slash, every component the loop accumulates
is good: `..` never enters the accumulator of an absolute path. -/
theorem foldl_normStep_inv (s : Nat) (hs : s ≠ 0) (comps : List PStr) :
    ∀ acc, (∀ x ∈ acc, goodComp x) → (∀ x ∈ comps, '/' ∉ x) →
      ∀ x ∈ comps.foldl (normStep s) acc, goodComp x := by
  induction comps with
  | nil => intro acc hacc _ x hx; exact hacc x (by simpa using hx)
  | cons comp rest ih =>
    intro acc hacc hcomps x hx
    rw [List.foldl_cons] at hx
    refine ih (normStep s acc comp) ?_ (fun z hz => hcomps z (List.mem_cons_of_mem comp hz)) x hx
    intro z hz
    by_cases h1 : comp = [] ∨ comp = pstr "."
    · rw [normStep, if_pos h1] at hz
      exact hacc z hz
    · by_cases h2 : comp ≠ pstr ".." ∨ (s = 0 ∧ acc = []) ∨ acc.getLast? = some (pstr "..")
      · rw [normStep, if_neg h1, if_pos h2] at hz
        rcases List.mem_append.mp hz with hz | hz
        · exact hacc z hz
        · have hzc : z = comp := by simpa using hz
          subst hzc
          push_neg at h1
          refine ⟨h1.1, h1.2, ?_, hcomps z (List.mem_cons_self z rest)⟩
          rcases h2 with h2 | h2 | h2
          · exact h2
          · exact absurd h2.1 hs
          · exact absurd rfl ((hacc _ (mem_of_getLast?_eq acc _ h2)).2.2.1)
      · by_cases h3 : acc ≠ []
        · rw [normStep, if_neg h1, if_neg h2, if_pos h3] at hz
          exact hacc z (mem_of_mem_dropLast acc z hz)
        · rw [normStep, if_neg h1, if_neg h2, if_neg h3] at hz
          exact hacc z hz

/-- A string whose head is not a slash has no single-slash prefix. -/
theorem isPrefixOf_slash_eq_false (t : PStr) (h : t.head? ≠ some '/') :
    (pstr "/").isPrefixOf t = false := by
  cases t with
  | nil => rfl
  | cons c u =>
    have hc : c ≠ '/' := fun hh => h (by simp [hh])
    simp [pstr, List.isPrefixOf, Ne.symm hc]

/-- One leading slash followed by a non-slash yields one preserved slash. -/
theorem initialSlashes_one (t : PStr) (h : t.head? ≠ some '/') :
    initialSlashes ('/' :: t) = 1 := by
  have h1 : (pstr "/").isPrefixOf ('/' :: t) = true := by simp [pstr, List.isPrefixOf]
  have h2 : (pstr "//").isPrefixOf ('/' :: t) = false := by
    simpa [pstr, List.isPrefixOf] using isPrefixOf_slash_eq_false t h
  rw [initialSlashes, if_pos h1, if_neg (by simp [h2])]

/-- Exactly two leading slashes yield two preserved slashes. -/
theorem initialSlashes_two (t : PStr) (h : t.head? ≠ some '/') :
    initialSlashes ('/' :: '/' :: t) = 2 := by
  have h1 : (pstr "/").isPrefixOf ('/' :: '/' :: t) = true := by simp [pstr, List.isPrefixOf]
  have h2 : (pstr "//").isPrefixOf ('/' :: '/' :: t) = true := by simp [pstr, List.isPrefixOf]
  have h3 : (pstr "///").isPrefixOf ('/' :: '/' :: t) = false := by
    simpa [pstr, List.isPrefixOf] using isPrefixOf_slash_eq_false t h
  rw [initialSlashes, if_pos h1, if_pos (by simp [h2, h3])]

/-- An absolute path preserves at least one slash. -/
theorem initialSlashes_pos (p : PStr) (h : p.head? = some '/') :
    initialSlashes p ≠ 0 := by
  have h1 : (pstr "/").isPrefixOf p = true := by
    cases p with
    | nil => simp at h
    | cons c t =>
      have : c = '/' := by simpa using h
      simp [pstr, List.isPrefixOf, this]
  rw [initialSlashes, if_pos h1]
  split <;> simp

/-- An absolute path preserves one or two slashes. -/
theorem initialSlashes_one_or_two (p : PStr) (h : p.head? = some '/') :
    initialSlashes p = 1 ∨ initialSlashes p = 2 := by
  have hpos := initialSlashes_pos p h
  rw [initialSlashes] at hpos ⊢
  by_cases h1 : ((pstr "/").isPrefixOf p) = true
  · rw [if_pos h1]
    split
    · right; rfl
    · left; rfl
  · rw [if_neg h1] at hpos
    exact absurd rfl hpos

/-- The first character of a joined nonempty first piece. -/
theorem intercalateSlash_cons_head (c : Char) (x : PStr) (xs : List PStr) :
    (intercalateSlash ((c :: x) :: xs)).head? = some c := by
  cases xs <;> simp [intercalateSlash]

/-- Splitting after `k` leading slashes yields `k` leading empty pieces. -/
theorem splitOnSlash_replicate (k : Nat) (s : PStr) :
    splitOnSlash (List.replicate k '/' ++ s) = List.replicate k [] ++ splitOnSlash s := by
  induction k with
  | zero => simp
  | succ n ih =>
    simp only [List.replicate_succ, List.cons_append, splitOnSlash_cons_slash, ih]

/-- On a nonempty path, `normpath` returns its reconstructed component form;
for an absolute path the result is never empty, so the fallback to `.` does
not fire. -/
theorem normpath_abs_eq (p : PStr) (h : p.head? = some '/') :
    normpath p = List.replicate (initialSlashes p) '/' ++
      intercalateSlash ((splitOnSlash p).foldl (normStep (initialSlashes p)) []) := by
  have hp : p ≠ [] := by cases p <;> simp_all
  obtain ⟨n, hn⟩ := Nat.exists_eq_succ_of_ne_zero (initialSlashes_pos p h)
  rw [normpath, if_neg hp]
  simp only [hn, List.replicate_succ, List.cons_append]
  rw [if_neg (by simp)]

/-- `normpath` keeps an absolute path absolute. -/
theorem normpath_abs_head (p : PStr) (h : p.head? = some '/') :
    (normpath p).head? = some '/' := by
  rw [normpath_abs_eq p h]
  obtain ⟨n, hn⟩ := Nat.exists_eq_succ_of_ne_zero (initialSlashes_pos p h)
  simp [hn, List.replicate_succ]

/-- A reconstructed absolute normal form is a fixed point of `normpath`. -/
theorem normpath_fixed (s : Nat) (hs : s = 1 ∨ s = 2) (comps : List PStr)
    (hgood : ∀ x ∈ comps, goodComp x) :
    normpath (List.replicate s '/' ++ intercalateSlash comps)
      = List.replicate s '/' ++ intercalateSlash comps := by
  have hhead : (List.replicate s '/' ++ intercalateSlash comps).head? = some '/' := by
    rcases hs with h | h <;> subst h <;> simp [List.replicate_succ]
  have htail : (intercalateSlash comps).head? ≠ some '/' := by
    cases comps with
    | nil => simp [intercalateSlash]
    | cons x xs =>
      obtain ⟨hx1, _, _, hx4⟩ := hgood x (List.mem_cons_self x xs)
      cases x with
      | nil => exact absurd rfl hx1
      | cons c x' =>
        rw [intercalateSlash_cons_head c x' xs]
        have : c ≠ '/' := fun hc => hx4 (hc ▸ List.mem_cons_self c x')
        simp [this]
  have hs' : initialSlashes (List.replicate s '/' ++ intercalateSlash comps) = s := by
    rcases hs with h | h <;> subst h
    · simpa [List.replicate_succ] using initialSlashes_one (intercalateSlash comps) htail
    · simpa [List.replicate_succ] using initialSlashes_two (intercalateSlash comps) htail
  rw [normpath_abs_eq _ hhead, hs', splitOnSlash_replicate, foldl_normStep_empties]
  cases comps with
  | nil =>
    simp [intercalateSlash, splitOnSlash, normStep_empty]
  | cons x xs =>
    rw [splitOnSlash_intercalate (x :: xs) (by simp) (fun z hz => (hgood z hz).2.2.2),
      foldl_normStep_good s (x :: xs) hgood]
    simp

/-- `normpath` is idempotent on absolute paths. -/
theorem normpath_idem_abs (p : PStr) (h : p.head? = some '/') :
    normpath (normpath p) = normpath p := by
  have hgood : ∀ x ∈ (splitOnSlash p).foldl (normStep (initialSlashes p)) [], goodComp x :=
    foldl_normStep_inv (initialSlashes p) (initialSlashes_pos p h) (splitOnSlash p) []
      (by simp) (splitOnSlash_no_slash_mem p)
  rw [normpath_abs_eq p h]
  exact normpath_fixed (initialSlashes p) (initialSlashes_one_or_two p h) _ hgood

/-- Joining onto an absolute path yields an absolute path. -/
theorem pjoin_abs_head (a b : PStr) (h : a.head? = some '/') :
    (pjoin a b).head? = some '/' := by
  rw [pjoin]
  by_cases hb : b.head? = some '/'
  · rw [if_pos hb]; exact hb
  · rw [if_neg hb]
    have ha : a ≠ [] := by cases a <;> simp_all
    obtain ⟨c, t, hct⟩ := List.exists_cons_of_ne_nil ha
    subst hct
    split <;> simpa using h

/-- Joining an absolute second path returns it unchanged. -/
theorem pjoin_abs_right (a b : PStr) (h : b.head? = some '/') : pjoin a b = b := by
  rw [pjoin, if_pos h]

/-- `abspath` of anything is absolute when the working directory is. -/
theorem abspath_abs_head (cwd p : PStr) (h : cwd.head? = some '/') :
    (abspath cwd p).head? = some '/' := by
  rw [abspath]
  by_cases hp : p.head? = some '/'
  · rw [if_pos hp]; exact normpath_abs_head p hp
  · rw [if_neg hp]; exact normpath_abs_head _ (pjoin_abs_head cwd p h)

/-- `abspath` is idempotent when the working directory is absolute. -/
theorem abspath_idem (cwd p : PStr) (h : cwd.head? = some '/') :
    abspath cwd (abspath cwd p) = abspath cwd p := by
  have habs := abspath_abs_head cwd p h
  conv_lhs => rw [abspath, if_pos habs]
  rw [abspath]
  by_cases hp : p.head? = some '/'
  · rw [if_pos hp]; exact normpath_idem_abs p hp
  · rw [if_neg hp]; exact normpath_idem_abs _ (pjoin_abs_head cwd p h)

/-- Claim C2, counterexample: `Repository.build` does not pass the isolation
flag through.  The source calls `self.presenter.build(out_directory)` with no
second argument, so the code's build returns the same result for both values
of the flag, while the build operation the claim describes distinguishes a
presenter that reacts to isolation. -/
theorem build_isolation_flag_cex :
    Repository.build (fun _ => pstr "/tmp/out") none true
      = Repository.build (fun _ => pstr "/tmp/out") none false
    ∧ buildPerSpec (fun _ isolate => if isolate then pstr "/tmp/isolated" else pstr "/tmp/out")
        none true
      ≠ buildPerSpec (fun _ isolate => if isolate then pstr "/tmp/isolated" else pstr "/tmp/out")
        none false :=
  ⟨rfl, by decide⟩

/-- Claim C2, amended: for every presenter and arguments, `Repository.build`
delegates to the presenter's build operation passing through only the
optional output directory override, returns the presenter's result exactly,
and ignores the isolation flag (`virtualenv`), whose value never affects the
result. -/
theorem build_delegates_out_directory_only (presenter_build : Option PStr → PStr)
    (out_directory : Option PStr) (v v' : Bool) :
    Repository.build presenter_build out_directory v = presenter_build out_directory
    ∧ Repository.build presenter_build out_directory v
      = Repository.build presenter_build out_directory v' :=
  ⟨rfl, rfl⟩

/-- Claim C9: the first declared parameter of `Repository.init` (named
`self` although `init` is a static factory) is never used — two calls
differing only in that argument have identical outcome and effects — and a
call with three positional arguments binds them shifted: the first is
discarded into the `self` slot, the second becomes `content_directory`, the
third `repo_directory`, and `template` stays at its default. -/
theorem init_self_parameter_unused {α : Type} (env : InitEnv) (a b : α)
    (content_directory repo_directory template : Option PStr) (x y z : PStr) :
    Repository.init env a content_directory repo_directory template
      = Repository.init env b content_directory repo_directory template
    ∧ repositoryInitPositional env x y z
      = Repository.init env () (some y) (some z) none :=
  ⟨rfl, rfl⟩

/-- Claim C3: `preview` first builds (via the build collaborator with
defaults) to obtain an output directory, switches into it, binds the server
— at `127.0.0.1:5000` when host and port are omitted, at the given
`host:port` otherwise — prints the bound address, and only then enters the
blocking serve loop. -/
theorem preview_builds_then_serves (buildFn : PStr → PStr) (cd : PStr) (hcd : cd ≠ [])
    (h : PStr) (p : Nat) (hh : h ≠ []) (hp : p ≠ 0) :
    Repository.preview buildFn cd none none
      = [Effect.buildCall cd, Effect.chdir (buildFn cd),
         Effect.bindServer (pstr "127.0.0.1") 5000,
         Effect.printLine (servingMessage (pstr "127.0.0.1") 5000),
         Effect.serveForever]
    ∧ Repository.preview buildFn cd (some h) (some p)
      = [Effect.buildCall cd, Effect.chdir (buildFn cd),
         Effect.bindServer h p,
         Effect.printLine (servingMessage h p),
         Effect.serveForever] := by
  constructor <;> simp [Repository.preview, previewing.preview, pyOrStr, pyOrNat, hcd, hh, hp]

/-- Witness for C3 at a concrete content directory, host and port. -/
theorem preview_builds_then_serves_witness :
    Repository.preview (fun d => pjoin d (pstr "out")) (pstr "/content") none none
      = [Effect.buildCall (pstr "/content"),
         Effect.chdir (pjoin (pstr "/content") (pstr "out")),
         Effect.bindServer (pstr "127.0.0.1") 5000,
         Effect.printLine (servingMessage (pstr "127.0.0.1") 5000),
         Effect.serveForever] :=
  (preview_builds_then_serves (fun d => pjoin d (pstr "out")) (pstr "/content") (by decide)
    (pstr "0.0.0.0") 8080 (by decide) (by decide)).1

/-- Claim C10: constructing a `Repository` with all arguments omitted
replaces the omitted `directory` with `'.'`, so path resolution takes the
given-repo-directory branch: the metadata directory resolves to `'.'`
itself and the content directory to `'./..'`, not to a `.gitpress`
subdirectory of the working directory (the defaulted-repo-directory branch
of `resolve` is unreachable whenever the constructor runs, as its
`repo_directory` argument is always present). -/
theorem ctor_defaults_resolution (cwd : PStr) (h : cwd.head? = some '/') :
    ctorResolve cwd none none = (pstr "./..", pstr ".")
    ∧ ctorResolve cwd none none ≠ Repository.resolve cwd none none
    ∧ (∀ d? : Option PStr, ctorResolve cwd d? none
        = (pjoin (d?.getD (pstr ".")) (pstr ".."), d?.getD (pstr "."))) := by
  refine ⟨rfl, ?_, fun _ => rfl⟩
  intro heq
  have e1 : ctorResolve cwd none none = (pjoin (pstr ".") (pstr ".."), pstr ".") := rfl
  have e2 : Repository.resolve cwd none none
      = (abspath cwd (pstr "."), pjoin (abspath cwd (pstr ".")) default_directory) := rfl
  rw [e1, e2] at heq
  have h2 : pstr "." = pjoin (abspath cwd (pstr ".")) default_directory :=
    congrArg Prod.snd heq
  have habs := pjoin_abs_head (abspath cwd (pstr ".")) default_directory
    (abspath_abs_head cwd (pstr ".") h)
  rw [← h2] at habs
  exact absurd habs (by decide)

/-- Witness for C10 at the concrete working directory `/cwd`. -/
theorem ctor_defaults_resolution_witness :
    (pstr "/cwd").head? = some '/'
    ∧ ctorResolve (pstr "/cwd") none none = (pstr "./..", pstr ".")
    ∧ ctorResolve (pstr "/cwd") none none ≠ Repository.resolve (pstr "/cwd") none none :=
  ⟨by decide, (ctor_defaults_resolution (pstr "/cwd") (by decide)).1,
    (ctor_defaults_resolution (pstr "/cwd") (by decide)).2.1⟩

/-- Claim C4, counterexample: with `repo_directory` given as the relative
path `b` and `content_directory` omitted, `resolve` returns the raw join
`b/..` as the content directory — a relative path, not the parent
normalized to an absolute path (which would be `/cwd`). -/
theorem resolve_content_not_absolute_cex :
    Repository.resolve (pstr "/cwd") none (some (pstr "b")) = (pstr "b/..", pstr "b")
    ∧ (Repository.resolve (pstr "/cwd") none (some (pstr "b"))).1.head? ≠ some '/'
    ∧ (Repository.resolve (pstr "/cwd") none (some (pstr "b"))).1
      ≠ abspath (pstr "/cwd") (pstr "b/..") := by
  refine ⟨rfl, by decide, by decide⟩

/-- Claim C4, amended: the returned `content_directory` is absolute in every
case except the given-repo/omitted-content branch; in that branch `resolve`
returns `os.path.join(repo_directory, '..')` — not normalized, and relative
whenever `repo_directory` is — with `repo_directory` unchanged. -/
theorem resolve_content_absolute_amended (cwd : PStr) (h : cwd.head? = some '/') :
    (∀ (c : PStr) (r? : Option PStr),
      (Repository.resolve cwd (some c) r?).1.head? = some '/')
    ∧ (Repository.resolve cwd none none).1.head? = some '/'
    ∧ (∀ r : PStr, Repository.resolve cwd none (some r) = (pjoin r (pstr ".."), r)) := by
  refine ⟨?_, ?_, fun _ => rfl⟩
  · intro c r?
    cases r? with
    | none => exact abspath_abs_head cwd c h
    | some r => exact abspath_abs_head cwd c h
  · exact abspath_abs_head cwd (pstr ".") h

/-- Witness for the amended C4 at concrete inputs. -/
theorem resolve_content_absolute_amended_witness :
    (pstr "/cwd").head? = some '/'
    ∧ (Repository.resolve (pstr "/cwd") (some (pstr "site")) (some (pstr ".gitpress"))).1.head?
      = some '/'
    ∧ (Repository.resolve (pstr "/cwd") none none).1.head? = some '/' :=
  ⟨by decide,
    (resolve_content_absolute_amended (pstr "/cwd") (by decide)).1 (pstr "site")
      (some (pstr ".gitpress")),
    (resolve_content_absolute_amended (pstr "/cwd") (by decide)).2.1⟩

/-- Claim C7, counterexample: for the valid pair (content omitted,
`repo_directory = a/b`), re-resolving the output of `resolve` does not give
the same result, not even up to `abspath` normalization: the first pass
yields `(a/b/.., a/b)`, the second `(/cwd/a, /cwd/a/a/b)`, whereas the
normalization of the first is `(/cwd/a, /cwd/a/b)`. -/
theorem resolve_not_idempotent_cex :
    Repository.resolve (pstr "/cwd")
        (some (Repository.resolve (pstr "/cwd") none (some (pstr "a/b"))).1)
        (some (Repository.resolve (pstr "/cwd") none (some (pstr "a/b"))).2)
      ≠ Repository.resolve (pstr "/cwd") none (some (pstr "a/b"))
    ∧ (abspath (pstr "/cwd")
          (Repository.resolve (pstr "/cwd")
            (some (Repository.resolve (pstr "/cwd") none (some (pstr "a/b"))).1)
            (some (Repository.resolve (pstr "/cwd") none (some (pstr "a/b"))).2)).2)
      ≠ abspath (pstr "/cwd")
          (Repository.resolve (pstr "/cwd") none (some (pstr "a/b"))).2 := by
  refine ⟨by decide, by decide⟩

/-- The defaulting branch of `resolve` maps its own output to itself when
the working directory is absolute. -/
theorem resolve_second_branch_idem (cwd c0 : PStr) (h : cwd.head? = some '/') (rr : PStr) :
    Repository.resolve cwd (some (abspath cwd c0)) (some (pjoin (abspath cwd c0) rr))
      = (abspath cwd c0, pjoin (abspath cwd c0) rr) := by
  have hA : (abspath cwd c0).head? = some '/' := abspath_abs_head cwd c0 h
  have hJ : (pjoin (abspath cwd c0) rr).head? = some '/' := pjoin_abs_head _ _ hA
  show (abspath cwd (abspath cwd c0),
        pjoin (abspath cwd (abspath cwd c0)) (pjoin (abspath cwd c0) rr))
      = (abspath cwd c0, pjoin (abspath cwd c0) rr)
  rw [abspath_idem cwd c0 h, pjoin_abs_right _ _ hJ]

/-- Claim C7, amended: `resolve` is idempotent — applying it to its own
output returns that output unchanged — for every pair in which
`content_directory` is given or `repo_directory` is omitted (the working
directory being absolute); only the given-repo/omitted-content branch
violates idempotence. -/
theorem resolve_idempotent_amended (cwd : PStr) (h : cwd.head? = some '/')
    (c? r? : Option PStr) (hc : c?.isSome ∨ r? = none) :
    Repository.resolve cwd (some (Repository.resolve cwd c? r?).1)
        (some (Repository.resolve cwd c? r?).2)
      = Repository.resolve cwd c? r? := by
  cases c? with
  | none =>
    rcases hc with hc | hc
    · simp at hc
    · subst hc
      exact resolve_second_branch_idem cwd (pstr ".") h default_directory
  | some c =>
    cases r? with
    | none => exact resolve_second_branch_idem cwd c h default_directory
    | some r => exact resolve_second_branch_idem cwd c h r

/-- Witness for the amended C7 at concrete inputs. -/
theorem resolve_idempotent_amended_witness :
    (pstr "/cwd").head? = some '/'
    ∧ (some (pstr "site") : Option PStr).isSome = true
    ∧ Repository.resolve (pstr "/cwd")
        (some (Repository.resolve (pstr "/cwd") (some (pstr "site")) (some (pstr "docs"))).1)
        (some (Repository.resolve (pstr "/cwd") (some (pstr "site")) (some (pstr "docs"))).2)
      = Repository.resolve (pstr "/cwd") (some (pstr "site")) (some (pstr "docs")) :=
  ⟨by decide, by decide,
    resolve_idempotent_amended (pstr "/cwd") (by decide) (some (pstr "site"))
      (some (pstr "docs")) (Or.inl (by decide))⟩

/-- Reading a key back right after writing it yields the written value. -/
theorem configLookup_insert_self (c : Config) (k : PStr) (v : CVal) :
    configLookup (configInsert c k v) k = some v := by
  induction c with
  | nil => simp [configInsert, configLookup]
  | cons p rest ih =>
    obtain ⟨k', w⟩ := p
    by_cases hk : k' = k
    · simp [configInsert, hk, configLookup]
    · simp [configInsert, hk, configLookup, ih]

/-- Claim C1: the existence probe of `Repository.init`.  If the probe
construction succeeds, `init` fails with `RepositoryAlreadyExistsError` at
the resolved pair; if it fails with one of the three suppressed kinds,
`init` proceeds to create the repository; any other error propagates
unchanged. -/
theorem init_probe_triage {α : Type} (env : InitEnv) (a : α) (c r t : Option PStr) :
    (env.probe (Repository.resolve env.cwd c r).2 (Repository.resolve env.cwd c r).1
        = Except.ok () →
      Repository.init env a c r t
        = Except.error (PyError.repositoryAlreadyExists
            (Repository.resolve env.cwd c r).1 (Repository.resolve env.cwd c r).2))
    ∧ (∀ e, env.probe (Repository.resolve env.cwd c r).2 (Repository.resolve env.cwd c r).1
          = Except.error e →
        suppressedByInitProbe e = true →
      Repository.init env a c r t
        = initProceed env (Repository.resolve env.cwd c r).1
            (Repository.resolve env.cwd c r).2 (t.getD default_template))
    ∧ (∀ e, env.probe (Repository.resolve env.cwd c r).2 (Repository.resolve env.cwd c r).1
          = Except.error e →
        suppressedByInitProbe e = false →
      Repository.init env a c r t = Except.error e) := by
  refine ⟨?_, ?_, ?_⟩
  · intro hp
    simp only [Repository.init]
    rw [hp]
    rfl
  · intro e hp hs
    simp only [Repository.init]
    rw [hp]
    cases e <;> simp_all [suppressedByInitProbe, initProbe]
  · intro e hp hs
    simp only [Repository.init]
    rw [hp]
    cases e <;> simp_all [suppressedByInitProbe, initProbe]

/-- Witness for C1: the three probe outcomes at concrete environments —
success turns into `RepositoryAlreadyExistsError`, a suppressed
`RepositoryNotFoundError` lets `init` proceed, and an unrelated error
propagates unchanged. -/
theorem init_probe_triage_witness :
    Repository.init (initEnvOfProbe (Except.ok ())) () none none none
      = Except.error (PyError.repositoryAlreadyExists
          (Repository.resolve (pstr "/cwd") none none).1
          (Repository.resolve (pstr "/cwd") none none).2)
    ∧ Repository.init
          (initEnvOfProbe (Except.error (PyError.repositoryNotFound (pstr "/cwd/.gitpress"))))
          () none none none
      = initProceed
          (initEnvOfProbe (Except.error (PyError.repositoryNotFound (pstr "/cwd/.gitpress"))))
          (Repository.resolve (pstr "/cwd") none none).1
          (Repository.resolve (pstr "/cwd") none none).2 default_template
    ∧ Repository.init (initEnvOfProbe (Except.error (PyError.otherError (pstr "boom"))))
          () none none none
      = Except.error (PyError.otherError (pstr "boom")) :=
  ⟨(init_probe_triage (initEnvOfProbe (Except.ok ())) () none none none).1 rfl,
    (init_probe_triage
        (initEnvOfProbe (Except.error (PyError.repositoryNotFound (pstr "/cwd/.gitpress"))))
        () none none none).2.1 _ rfl rfl,
    (init_probe_triage (initEnvOfProbe (Except.error (PyError.otherError (pstr "boom"))))
        () none none none).2.2 _ rfl rfl⟩

/-- Claim C5, counterexample: on a repository whose metadata directory has
no themes subdirectory, `use_theme` fails with the Python built-in
TypeError (`theme not in None`), which is a different error kind than
`ThemeNotFoundError`. -/
theorem use_theme_no_themes_dir_cex :
    Repository.use_theme ⟨none, []⟩ (pstr "x")
      = Except.error (PyError.typeError (pstr "argument of type NoneType is not iterable"))
    ∧ PyError.typeError (pstr "argument of type NoneType is not iterable")
      ≠ PyError.themeNotFound (pstr "x") :=
  ⟨rfl, by decide⟩

/-- Claim C5, amended: when the themes subdirectory exists, `use_theme` of
a name not among the installed themes fails with `ThemeNotFoundError` and
no other kind; when the subdirectory is missing, it fails with a TypeError
(membership test on `None`) instead. -/
theorem use_theme_missing_theme (st : RepoState) (t : PStr) :
    (∀ l, st.themesListing = some l → t ∉ l →
      Repository.use_theme st t = Except.error (PyError.themeNotFound t))
    ∧ (st.themesListing = none →
      Repository.use_theme st t
        = Except.error (PyError.typeError
            (pstr "argument of type NoneType is not iterable"))) := by
  constructor
  · intro l hl ht
    unfold Repository.use_theme Repository.themes
    rw [hl]
    exact if_pos ht
  · intro hl
    unfold Repository.use_theme Repository.themes
    rw [hl]

/-- Witness for the amended C5 at a concrete repository and theme name. -/
theorem use_theme_missing_theme_witness :
    (⟨some [pstr "default"], []⟩ : RepoState).themesListing = some [pstr "default"]
    ∧ (pstr "x") ∉ [pstr "default"]
    ∧ Repository.use_theme ⟨some [pstr "default"], []⟩ (pstr "x")
      = Except.error (PyError.themeNotFound (pstr "x")) :=
  ⟨rfl, by decide,
    (use_theme_missing_theme ⟨some [pstr "default"], []⟩ (pstr "x")).1
      [pstr "default"] rfl (by decide)⟩

/-- Claim C6: for an installed theme, `use_theme` writes the `theme` config
key and returns `true` exactly when the stored value changed — `false` if
the name was already the active theme — and a subsequent read of the key
yields the name. -/
theorem use_theme_installed (st : RepoState) (t : PStr) (l : List PStr)
    (hl : st.themesListing = some l) (ht : t ∈ l) :
    Repository.use_theme st t
      = Except.ok (! pyEqStr (configLookup st.config (pstr "theme")) t,
          ⟨st.themesListing, configInsert st.config (pstr "theme") (CVal.str t)⟩)
    ∧ configLookup (configInsert st.config (pstr "theme") (CVal.str t)) (pstr "theme")
      = some (CVal.str t) := by
  constructor
  · unfold Repository.use_theme Repository.themes
    rw [hl]
    exact if_neg (not_not_intro ht)
  · exact configLookup_insert_self st.config (pstr "theme") (CVal.str t)

/-- Witness for C6: switching from active theme `a` to installed theme `b`
returns `true` and the key reads back as `b`; switching to `a` again on the
same state returns `false`. -/
theorem use_theme_installed_witness :
    (⟨some [pstr "a", pstr "b"], [(pstr "theme", CVal.str (pstr "a"))]⟩
        : RepoState).themesListing = some [pstr "a", pstr "b"]
    ∧ (pstr "b") ∈ [pstr "a", pstr "b"]
    ∧ Repository.use_theme
          ⟨some [pstr "a", pstr "b"], [(pstr "theme", CVal.str (pstr "a"))]⟩ (pstr "b")
        = Except.ok (true,
            ⟨some [pstr "a", pstr "b"],
              configInsert [(pstr "theme", CVal.str (pstr "a"))] (pstr "theme")
                (CVal.str (pstr "b"))⟩)
    ∧ Repository.use_theme
          ⟨some [pstr "a", pstr "b"], [(pstr "theme", CVal.str (pstr "a"))]⟩ (pstr "a")
        = Except.ok (false,
            ⟨some [pstr "a", pstr "b"],
              configInsert [(pstr "theme", CVal.str (pstr "a"))] (pstr "theme")
                (CVal.str (pstr "a"))⟩) :=
  ⟨rfl, by decide,
    (use_theme_installed ⟨some [pstr "a", pstr "b"], [(pstr "theme", CVal.str (pstr "a"))]⟩
      (pstr "b") [pstr "a", pstr "b"] rfl (by decide)).1,
    (use_theme_installed ⟨some [pstr "a", pstr "b"], [(pstr "theme", CVal.str (pstr "a"))]⟩
      (pstr "a") [pstr "a", pstr "b"] rfl (by decide)).1⟩

/-- Entries of a plugins mapping not containing a name contribute nothing
when filtering the materialized requirements for that name. -/
theorem plugins_filter_not_mem (m : List (PStr × CVal)) (x : PStr)
    (hx : x ∉ m.map Prod.fst) :
    (m.map (fun p => (⟨p.1, p.2⟩ : PluginRequirement))).filter
      (fun pr => pr.name == x) = [] := by
  induction m with
  | nil => rfl
  | cons p rest ih =>
    obtain ⟨k, v⟩ := p
    have hk : k ≠ x := by
      intro hh
      subst hh
      exact hx (by rw [List.map_cons]; exact List.mem_cons_self _ _)
    have hrest : x ∉ rest.map Prod.fst := by
      intro hh
      exact hx (by rw [List.map_cons]; exact List.mem_cons_of_mem _ hh)
    simp [List.filter_cons, hk, ih hrest]

/-- Claim C8, counterexample: on a repository that already has plugin `x`
installed, the first `add_plugin("x")` already returns `false` (and is a
no-op), so the pair of calls does not return `true` then `false` for
*every* repository. -/
theorem add_plugin_already_installed_cex :
    Repository.add_plugin [(pstr "plugins", CVal.dict [(pstr "x", CVal.dict [])])] (pstr "x")
      = Except.ok (false, [(pstr "plugins", CVal.dict [(pstr "x", CVal.dict [])])]) := rfl

/-- Claim C8, amended: on a repository whose plugins mapping is readable
(absent or well-typed) and does not yet contain `x`, `add_plugin(x)`
returns `true` and persists `x` with empty options; the second call
returns `false` leaving the config unchanged; and the plugin list then
holds exactly one entry named `x`, with empty options. -/
theorem add_plugin_twice (c : Config) (x : PStr) (m : List (PStr × CVal))
    (hm : configGetDictStrict c (pstr "plugins") = Except.ok m)
    (hx : x ∉ m.map Prod.fst) :
    Repository.add_plugin c x
      = Except.ok (true,
          configInsert c (pstr "plugins") (CVal.dict (m ++ [(x, CVal.dict [])])))
    ∧ Repository.add_plugin
        (configInsert c (pstr "plugins") (CVal.dict (m ++ [(x, CVal.dict [])]))) x
      = Except.ok (false,
          configInsert c (pstr "plugins") (CVal.dict (m ++ [(x, CVal.dict [])])))
    ∧ (Repository.plugins
          (configInsert c (pstr "plugins") (CVal.dict (m ++ [(x, CVal.dict [])])))).filter
        (fun pr => pr.name == x)
      = [⟨x, CVal.dict []⟩] := by
  have hlook : configLookup
      (configInsert c (pstr "plugins") (CVal.dict (m ++ [(x, CVal.dict [])])))
      (pstr "plugins") = some (CVal.dict (m ++ [(x, CVal.dict [])])) :=
    configLookup_insert_self c (pstr "plugins") (CVal.dict (m ++ [(x, CVal.dict [])]))
  refine ⟨?_, ?_, ?_⟩
  · unfold Repository.add_plugin
    rw [hm]
    exact if_neg hx
  · have h2 : configGetDictStrict
        (configInsert c (pstr "plugins") (CVal.dict (m ++ [(x, CVal.dict [])])))
        (pstr "plugins") = Except.ok (m ++ [(x, CVal.dict [])]) := by
      unfold configGetDictStrict
      rw [hlook]
    unfold Repository.add_plugin
    rw [h2]
    exact if_pos (by
      rw [List.map_append]
      exact List.mem_append_right _ (List.mem_cons_self _ _))
  · unfold Repository.plugins configGetDictSilent
    rw [hlook]
    rw [List.map_append, List.filter_append, plugins_filter_not_mem m x hx]
    simp [List.filter]

/-- Witness for the amended C8 on a repository with no plugins config. -/
theorem add_plugin_twice_witness :
    configGetDictStrict [] (pstr "plugins") = Except.ok []
    ∧ (pstr "x") ∉ ([] : List (PStr × CVal)).map Prod.fst
    ∧ Repository.add_plugin [] (pstr "x")
      = Except.ok (true,
          configInsert [] (pstr "plugins") (CVal.dict ([] ++ [(pstr "x", CVal.dict [])])))
    ∧ Repository.add_plugin
        (configInsert [] (pstr "plugins") (CVal.dict ([] ++ [(pstr "x", CVal.dict [])])))
        (pstr "x")
      = Except.ok (false,
          configInsert [] (pstr "plugins") (CVal.dict ([] ++ [(pstr "x", CVal.dict [])]))) :=
  ⟨rfl, by simp,
    (add_plugin_twice [] (pstr "x") [] rfl (by simp)).1,
    (add_plugin_twice [] (pstr "x") [] rfl (by simp)).2.1⟩
